import Mathlib

/-!
Shallow embedding of the UAV strategic deconfliction core
(`deconfliction/models.py` and `deconfliction/core.py`).

Modelling choices, uniform through the file:
* Coordinates and times are exact rationals `ℚ` (the Python code uses
  floats; we verify the algorithm over exact arithmetic).
* A `datetime` is embedded as a rational number of seconds on a common
  timeline; `timedelta` addition and `total_seconds` become plain
  rational arithmetic, which is exactly what `_interpolate_datetime`
  computes.
* numpy 2-vectors and 3-vectors are both embedded as `Vec3`, a triple of
  rationals, with a 2-vector padded by `z = 0`.  Every operation the code
  performs on these arrays (subtraction, addition, scalar multiplication,
  dot product, norm, taking the first two components) agrees with the
  2-dimensional computation under zero padding, and the code never mixes
  a 2-vector with a 3-vector in a single operation.
* `np.linalg.norm` returns a square root, which has no exact rational
  value, so the embedding carries squared distances.  Each comparison the
  code makes against a norm is translated to the exactly equivalent
  comparison on squares: for `q ≥ 0`, `Real.sqrt q < m ↔ 0 < m ∧ q < m²`
  (lemma `sqrt_lt_iff` below), and `Real.sqrt q < 1e-8 ↔ q < 1e-16`.
  Comparisons the source makes on quantities that are already squared
  (`a > 1e-8`, `c > 1e-8`, `|denom| < 1e-8`) are translated verbatim.
* `datetime.now()` is a hidden input of `_interpolate_time`; the
  embedding makes it an explicit parameter `now : ℚ`.
* `raise ValueError` in `Mission.__post_init__` becomes `Except String`.
-/

/-- The numerical tolerance `1e-8` used uniformly by the source. -/
def eps : ℚ := 1 / 100000000

/-- `eps ^ 2 = 1e-16`: threshold for a squared norm at the one place
(`_interpolate_time`) where the source compares a euclidean norm itself
against `1e-8`. -/
def epsSq : ℚ := eps * eps

/-- A numpy coordinate vector.  A 2-vector `[x, y]` is embedded with
`z = 0`; a 3-vector `[x, y, z]` literally. -/
structure Vec3 where
  x : ℚ
  y : ℚ
  z : ℚ
deriving DecidableEq

namespace Vec3

/-- Componentwise subtraction, `u - v` on numpy arrays. -/
def sub (u v : Vec3) : Vec3 := ⟨u.x - v.x, u.y - v.y, u.z - v.z⟩

/-- Componentwise addition, `u + v` on numpy arrays. -/
def add (u v : Vec3) : Vec3 := ⟨u.x + v.x, u.y + v.y, u.z + v.z⟩

/-- Scalar multiplication `t * v` on numpy arrays. -/
def smul (t : ℚ) (v : Vec3) : Vec3 := ⟨t * v.x, t * v.y, t * v.z⟩

/-- `np.dot(u, v)`. -/
def dot (u v : Vec3) : ℚ := u.x * v.x + u.y * v.y + u.z * v.z

/-- Squared euclidean norm: `np.linalg.norm(v) ** 2 = np.dot(v, v)`. -/
def normSq (v : Vec3) : ℚ := dot v v

/-- `v[:2]`, zero-padded back to a `Vec3`: keeps the planar components. -/
def planar (v : Vec3) : Vec3 := ⟨v.x, v.y, 0⟩

end Vec3

/-- Python `max(0, min(1, t))`, the clamp to `[0, 1]` used by
`_min_distance_segments`. -/
def clamp01 (t : ℚ) : ℚ := max 0 (min 1 t)

/-- `Waypoint` of `models.py`: planar position, optional altitude,
optional time. -/
structure Waypoint where
  x : ℚ
  y : ℚ
  z : Option ℚ
  time : Option ℚ
deriving DecidableEq

namespace Waypoint

/-- `Waypoint.coordinates(include_z)`: the 3-vector `[x, y, z]` when
`include_z` is set and `z` is present, else the (zero-padded) 2-vector
`[x, y]`.  The Python default `include_z=False` is written explicitly at
call sites. -/
def coordinates (wp : Waypoint) (include_z : Bool) : Vec3 :=
  if include_z then
    match wp.z with
    | some z => ⟨wp.x, wp.y, z⟩
    | none => ⟨wp.x, wp.y, 0⟩
  else ⟨wp.x, wp.y, 0⟩

end Waypoint

/-- `Mission` of `models.py` (the validated dataclass state after
`__post_init__`). -/
structure Mission where
  waypoints : List Waypoint
  start_time : ℚ
  end_time : ℚ
  drone_id : String
deriving DecidableEq

/-- `Mission._assign_waypoint_times`: first waypoint gets `start_time`,
waypoint `i ≥ 1` gets `start_time + time_per_segment * i` where
`time_per_segment = (end_time - start_time) / intervals` and `intervals`
is `len - 1` for more than one waypoint, else `1`. -/
def assign_waypoint_times (waypoints : List Waypoint) (start_time end_time : ℚ) :
    List Waypoint :=
  let total_duration := end_time - start_time
  let intervals : ℚ := if waypoints.length > 1 then ((waypoints.length - 1 : ℕ) : ℚ) else 1
  let time_per_segment := total_duration / intervals
  waypoints.mapIdx fun i wp =>
    if i = 0 then { wp with time := some start_time }
    else { wp with time := some (start_time + time_per_segment * (i : ℚ)) }

/-- `Mission.__post_init__`: reject an empty waypoint list, reject
`start_time >= end_time`, and when any waypoint lacks a time reassign
every waypoint time by even distribution. -/
def Mission.make (waypoints : List Waypoint) (start_time end_time : ℚ)
    (drone_id : String) : Except String Mission :=
  if waypoints.isEmpty then
    .error "Mission must have at least one waypoint"
  else if start_time ≥ end_time then
    .error "Mission end time must be after start time"
  else
    .ok { waypoints :=
            if waypoints.any (fun wp => wp.time.isNone) then
              assign_waypoint_times waypoints start_time end_time
            else waypoints,
          start_time := start_time, end_time := end_time, drone_id := drone_id }

/-- `Mission.get_path_segments`: consecutive waypoint pairs
`(waypoints[i], waypoints[i+1])`. -/
def Mission.get_path_segments (m : Mission) : List (Waypoint × Waypoint) :=
  m.waypoints.zip m.waypoints.tail

/-- One entry of `ConflictResult.conflict_details`.  `actual_distanceSq`
is the square of the recorded `actual_distance`. -/
structure ConflictRecord where
  location : ℚ × ℚ
  time : ℚ
  conflicting_drone_id : String
  actual_distanceSq : ℚ
  min_safe_distance : ℚ
deriving DecidableEq

/-- `ConflictResult` of `models.py`. -/
structure ConflictResult where
  is_clear : Bool
  conflict_details : List ConflictRecord
deriving DecidableEq

/-- `ConflictResult.add_conflict`: set `is_clear` to false and append the
record. -/
def ConflictResult.add_conflict (r : ConflictResult) (location : ℚ × ℚ)
    (time : ℚ) (conflicting_drone_id : String) (distanceSq : ℚ)
    (min_safe_distance : ℚ) : ConflictResult :=
  { is_clear := false,
    conflict_details := r.conflict_details ++
      [{ location := location, time := time,
         conflicting_drone_id := conflicting_drone_id,
         actual_distanceSq := distanceSq,
         min_safe_distance := min_safe_distance }] }

/-- `DeconflictionSystem.__init__`: the reference missions and the
threshold (Python default `50.0`). -/
structure DeconflictionSystem where
  simulated_flights : List Mission
  min_safe_distance : ℚ
deriving DecidableEq

/-- `DeconflictionSystem._min_distance_segments`: minimum distance
between segments `p1p2` and `p3p4`, returning `(squared distance, point
on segment 1, point on segment 2)`.  The source returns
`np.linalg.norm(pt1 - pt2)`; the embedding returns its square. -/
def min_distance_segments (p1 p2 p3 p4 : Vec3) : ℚ × Vec3 × Vec3 :=
  let v1 := p2.sub p1
  let v2 := p4.sub p3
  let w0 := p1.sub p3
  let a := v1.dot v1
  let b := v1.dot v2
  let c := v2.dot v2
  let d := v1.dot w0
  let e := v2.dot w0
  let denom := a * c - b * b
  if |denom| < eps then
    -- parallel / degenerate branch
    let t0 := if a > eps then d / a else 0
    let t0 := clamp01 t0
    let pt1 := p1.add (Vec3.smul t0 v1)
    let t1 := if c > eps then (pt1.sub p3).dot v2 / c else 0
    let t1 := clamp01 t1
    let pt2 := p3.add (Vec3.smul t1 v2)
    ((pt1.sub pt2).normSq, pt1, pt2)
  else
    let s := clamp01 ((b * e - c * d) / denom)
    let t := clamp01 ((a * e - b * d) / denom)
    let pt1 := p1.add (Vec3.smul s v1)
    let pt2 := p3.add (Vec3.smul t v2)
    ((pt1.sub pt2).normSq, pt1, pt2)

/-- The denominator `a*c - b*b` whose magnitude selects the parallel
branch of `_min_distance_segments`. -/
def segments_denom (p1 p2 p3 p4 : Vec3) : ℚ :=
  let v1 := p2.sub p1
  let v2 := p4.sub p3
  (v1.dot v1) * (v2.dot v2) - (v1.dot v2) * (v1.dot v2)

/-- `DeconflictionSystem._interpolate_datetime`: linear interpolation
between two times. -/
def interpolate_datetime (start_time end_time ratio : ℚ) : ℚ :=
  start_time + (end_time - start_time) * ratio

/-- `DeconflictionSystem._interpolate_time`.  When all four waypoint
times are present: projection ratios of the (planar slices of the)
closest points onto the planar segment vectors, clamped to `[0,1]`, zero
for a near-zero-length segment, then the earlier of the two interpolated
times.  Otherwise the earlier of the two start times, each falling back
to `now` (`datetime.now()`) when absent.  The source's
`dist1 < 1e-8` on a norm becomes `normSq < epsSq`, and
`dist1 * dist1 = normSq` exactly. -/
def interpolate_time (start1 end1 start2 end2 : Waypoint)
    (point1 point2 : Vec3) (now : ℚ) : ℚ :=
  match start1.time, end1.time, start2.time, end2.time with
  | some t1, some t1', some t2, some t2' =>
    let v1 := (end1.coordinates false).sub (start1.coordinates false)
    let v2 := (end2.coordinates false).sub (start2.coordinates false)
    let distSq1 := v1.normSq
    let distSq2 := v2.normSq
    let ratio1 :=
      if distSq1 < epsSq then 0
      else min 1 (max 0 (((point1.planar).sub (start1.coordinates false)).dot v1 / distSq1))
    let ratio2 :=
      if distSq2 < epsSq then 0
      else min 1 (max 0 (((point2.planar).sub (start2.coordinates false)).dot v2 / distSq2))
    min (interpolate_datetime t1 t1' ratio1) (interpolate_datetime t2 t2' ratio2)
  | _, _, _, _ => min (start1.time.getD now) (start2.time.getD now)

/-- `DeconflictionSystem._segment_times_overlap`: closed-open interval
overlap when all four times are present, conservatively `true` when any
is missing. -/
def segment_times_overlap (start1 end1 start2 end2 : Waypoint) : Bool :=
  match start1.time, end1.time, start2.time, end2.time with
  | some t1, some t1', some t2, some t2' => decide (t1 < t2' ∧ t2 < t1')
  | _, _, _, _ => true

/-- The inner conflict dict built by
`DeconflictionSystem._check_segment_conflict`.  `distanceSq` is the
square of the recorded `distance`. -/
structure ConflictInfo where
  location : ℚ × ℚ
  time : ℚ
  distanceSq : ℚ
deriving DecidableEq

/-- The geometry step of `_check_segment_conflict`: altitude is included
exactly when all four waypoints carry `z`; then
`_min_distance_segments` runs on the extracted coordinate vectors. -/
def segment_pair_geometry (start1 end1 start2 end2 : Waypoint) : ℚ × Vec3 × Vec3 :=
  let include_z := start1.z.isSome && end1.z.isSome && start2.z.isSome && end2.z.isSome
  min_distance_segments (start1.coordinates include_z) (end1.coordinates include_z)
    (start2.coordinates include_z) (end2.coordinates include_z)

/-- `DeconflictionSystem._check_segment_conflict`.  The source condition
`min_dist < min_safe_distance` on the euclidean distance is translated
to the exactly equivalent `0 < min_safe_distance ∧ distSq <
min_safe_distance ^ 2` on its square (see `sqrt_lt_iff`). -/
def check_segment_conflict (sys : DeconflictionSystem)
    (start1 end1 start2 end2 : Waypoint) (now : ℚ) : Option ConflictInfo :=
  let r := segment_pair_geometry start1 end1 start2 end2
  if 0 < sys.min_safe_distance ∧ r.1 < sys.min_safe_distance ^ 2 then
    some { location := (r.2.1.x, r.2.1.y),
           time := interpolate_time start1 end1 start2 end2 r.2.1 r.2.2 now,
           distanceSq := r.1 }
  else none

/-- `DeconflictionSystem._time_windows_overlap`. -/
def time_windows_overlap (mission1 mission2 : Mission) : Bool :=
  decide (mission1.start_time < mission2.end_time ∧
          mission2.start_time < mission1.end_time)

/-- `DeconflictionSystem._check_path_conflicts`: the all-pairs loop over
the two missions' segments, appending each surviving conflict. -/
def check_path_conflicts (sys : DeconflictionSystem) (mission1 mission2 : Mission)
    (now : ℚ) : List ConflictInfo :=
  mission1.get_path_segments.foldl (fun conflicts seg1 =>
    mission2.get_path_segments.foldl (fun conflicts seg2 =>
      if segment_times_overlap seg1.1 seg1.2 seg2.1 seg2.2 then
        match check_segment_conflict sys seg1.1 seg1.2 seg2.1 seg2.2 now with
        | some conflict_details => conflicts ++ [conflict_details]
        | none => conflicts
      else conflicts) conflicts) []

/-- `DeconflictionSystem.check_mission`: skip reference missions sharing
the candidate's drone id or with a disjoint mission-level time window,
and append every path conflict to the result. -/
def check_mission (sys : DeconflictionSystem) (mission : Mission) (now : ℚ) :
    ConflictResult :=
  sys.simulated_flights.foldl (fun result simulated_flight =>
    if simulated_flight.drone_id = mission.drone_id then result
    else if time_windows_overlap mission simulated_flight then
      (check_path_conflicts sys mission simulated_flight now).foldl
        (fun result conflict =>
          result.add_conflict conflict.location conflict.time
            simulated_flight.drone_id conflict.distanceSq sys.min_safe_distance)
        result
    else result)
    { is_clear := true, conflict_details := [] }

/-- The records one reference mission contributes to `check_mission`. -/
def flight_conflict_records (sys : DeconflictionSystem) (mission flight : Mission)
    (now : ℚ) : List ConflictRecord :=
  if flight.drone_id = mission.drone_id then []
  else if time_windows_overlap mission flight then
    (check_path_conflicts sys mission flight now).map fun c =>
      { location := c.location, time := c.time,
        conflicting_drone_id := flight.drone_id,
        actual_distanceSq := c.distanceSq,
        min_safe_distance := sys.min_safe_distance }
  else []

/-- All waypoints of a mission carry a time (which `Mission.make`
guarantees). -/
def Mission.fully_timed (m : Mission) : Bool :=
  m.waypoints.all fun wp => wp.time.isSome

/-- Example scenario: candidate mission flying y = 0..100 during 0-300 s. -/
def mission_drone1 : Mission :=
  { waypoints := [{ x := 0, y := 0, z := none, time := some 0 },
      { x := 0, y := 100, z := none, time := some 300 }],
    start_time := 0, end_time := 300, drone_id := "drone1" }

/-- Example scenario: a mission over the same coordinates during
1200-1500 s (minutes 20-25). -/
def mission_drone2_late : Mission :=
  { waypoints := [{ x := 0, y := 0, z := none, time := some 1200 },
      { x := 0, y := 100, z := none, time := some 1500 }],
    start_time := 1200, end_time := 1500, drone_id := "drone2" }

/-- Example system holding only the late mission. -/
def sys_disjoint : DeconflictionSystem :=
  { simulated_flights := [mission_drone2_late], min_safe_distance := 50 }

/-- Example scenario: candidate flying (0,0)→(100,0) during 0-300 s. -/
def mission_cross_cand : Mission :=
  { waypoints := [{ x := 0, y := 0, z := none, time := some 0 },
      { x := 100, y := 0, z := none, time := some 300 }],
    start_time := 0, end_time := 300, drone_id := "cand" }

/-- Example scenario: reference crossing the candidate's path during
120-180 s. -/
def mission_cross_ref : Mission :=
  { waypoints := [{ x := 50, y := -50, z := none, time := some 120 },
      { x := 50, y := 50, z := none, time := some 180 }],
    start_time := 120, end_time := 180, drone_id := "drone1" }

/-- Example system holding only the crossing reference mission. -/
def sys_cross : DeconflictionSystem :=
  { simulated_flights := [mission_cross_ref], min_safe_distance := 10 }

/-! ### Support lemmas -/

theorem Vec3.normSq_nonneg (v : Vec3) : 0 ≤ v.normSq := by
  have hx := mul_self_nonneg v.x
  have hy := mul_self_nonneg v.y
  have hz := mul_self_nonneg v.z
  simp only [Vec3.normSq, Vec3.dot]
  linarith

theorem min_distance_segments_fst_nonneg (p1 p2 p3 p4 : Vec3) :
    0 ≤ (min_distance_segments p1 p2 p3 p4).1 := by
  simp only [min_distance_segments]
  split_ifs <;> exact Vec3.normSq_nonneg _

/-- For `0 ≤ m`-free inputs: the float comparison `sqrt q < m` of the
source is exactly the squared comparison used by the embedding. -/
theorem sqrt_lt_iff (q m : ℚ) :
    Real.sqrt (q : ℝ) < (m : ℝ) ↔ (0 < m ∧ q < m ^ 2) := by
  constructor
  · intro h
    have hm : (0 : ℝ) < (m : ℝ) := lt_of_le_of_lt (Real.sqrt_nonneg _) h
    have hm' : 0 < m := by exact_mod_cast hm
    refine ⟨hm', ?_⟩
    have hq := (Real.sqrt_lt' hm).mp h
    exact_mod_cast hq
  · rintro ⟨hm, hlt⟩
    have hm' : (0 : ℝ) < (m : ℝ) := by exact_mod_cast hm
    exact (Real.sqrt_lt' hm').mpr (by exact_mod_cast hlt)

/-! ### Claims -/

/-- C3: for segment A = (0,0)-(10,0) and segment B = (5,5)-(5,10),
`_min_distance_segments` returns distance exactly 5.0 (squared distance
25), closest point on A = (5,0) and closest point on B = (5,5). -/
theorem C3_literal_case :
    min_distance_segments ⟨0, 0, 0⟩ ⟨10, 0, 0⟩ ⟨5, 5, 0⟩ ⟨5, 10, 0⟩ =
      (25, ⟨5, 0, 0⟩, ⟨5, 5, 0⟩) ∧ Real.sqrt ((25 : ℚ) : ℝ) = 5 := by
  constructor
  · norm_num [min_distance_segments, Vec3.sub, Vec3.add, Vec3.smul, Vec3.dot,
      Vec3.normSq, clamp01, eps, min_def, max_def, Vec3.mk.injEq]
  · rw [show ((25 : ℚ) : ℝ) = (5 : ℝ) ^ 2 by norm_num]
    exact Real.sqrt_sq (by norm_num)

/-- C2 counterexample: for the parallel segments A = (0,0)-(10,0) and
B = (2,1)-(4,1), the near-parallel branch returns squared distance 5 in
one argument order and 1 in the other, so the distance is not
symmetric. -/
theorem C2_counterexample :
    Real.sqrt (((min_distance_segments ⟨0, 0, 0⟩ ⟨10, 0, 0⟩ ⟨2, 1, 0⟩ ⟨4, 1, 0⟩).1 : ℚ) : ℝ) ≠
      Real.sqrt (((min_distance_segments ⟨2, 1, 0⟩ ⟨4, 1, 0⟩ ⟨0, 0, 0⟩ ⟨10, 0, 0⟩).1 : ℚ) : ℝ) := by
  have h1 : (min_distance_segments ⟨0, 0, 0⟩ ⟨10, 0, 0⟩ ⟨2, 1, 0⟩ ⟨4, 1, 0⟩).1 = 5 := by
    norm_num [min_distance_segments, Vec3.sub, Vec3.add, Vec3.smul, Vec3.dot,
      Vec3.normSq, clamp01, eps, min_def, max_def]
  have h2 : (min_distance_segments ⟨2, 1, 0⟩ ⟨4, 1, 0⟩ ⟨0, 0, 0⟩ ⟨10, 0, 0⟩).1 = 1 := by
    norm_num [min_distance_segments, Vec3.sub, Vec3.add, Vec3.smul, Vec3.dot,
      Vec3.normSq, clamp01, eps, min_def, max_def]
  rw [h1, h2]
  have hlt : Real.sqrt ((1 : ℚ) : ℝ) < Real.sqrt ((5 : ℚ) : ℝ) := by
    apply Real.sqrt_lt_sqrt <;> norm_num
  exact ne_of_gt hlt

theorem Vec3.dot_comm (u v : Vec3) : u.dot v = v.dot u := by
  simp only [Vec3.dot]; ring

theorem Vec3.dot_sub_swap (u a b : Vec3) : u.dot (a.sub b) = -(u.dot (b.sub a)) := by
  simp only [Vec3.dot, Vec3.sub]; ring

theorem Vec3.normSq_sub_comm (u v : Vec3) : (u.sub v).normSq = (v.sub u).normSq := by
  simp only [Vec3.normSq, Vec3.dot, Vec3.sub]; ring

theorem div_swap1 (a b c d e : ℚ) :
    (b * -d - a * -e) / (c * a - b * b) = (a * e - b * d) / (a * c - b * b) := by
  rw [show b * -d - a * -e = a * e - b * d by ring,
    show c * a - b * b = a * c - b * b by ring]

theorem div_swap2 (a b c d e : ℚ) :
    (c * -d - b * -e) / (c * a - b * b) = (b * e - c * d) / (a * c - b * b) := by
  rw [show c * -d - b * -e = b * e - c * d by ring,
    show c * a - b * b = a * c - b * b by ring]

/-- C2: the claim asserts symmetry of `_min_distance_segments` in both
branches; it fails in the near-parallel branch (see
`C2_counterexample`).  Amended claim: whenever `|a*c - b*b| ≥ 1e-8`, so
that both argument orders take the general (non-parallel) branch, the
distance is symmetric and the two closest points swap roles. -/
theorem C2_general_branch_symmetric (p1 p2 p3 p4 : Vec3)
    (h : ¬ |segments_denom p1 p2 p3 p4| < eps) :
    (min_distance_segments p1 p2 p3 p4).1 = (min_distance_segments p3 p4 p1 p2).1 ∧
    (min_distance_segments p1 p2 p3 p4).2.1 = (min_distance_segments p3 p4 p1 p2).2.2 ∧
    (min_distance_segments p1 p2 p3 p4).2.2 = (min_distance_segments p3 p4 p1 p2).2.1 := by
  have hs : segments_denom p3 p4 p1 p2 = segments_denom p1 p2 p3 p4 := by
    simp only [segments_denom, Vec3.sub, Vec3.dot]; ring
  have h' : ¬ |segments_denom p3 p4 p1 p2| < eps := by rw [hs]; exact h
  simp only [segments_denom] at h h'
  simp only [min_distance_segments]
  rw [if_neg h, if_neg h']
  rw [Vec3.dot_sub_swap (p2.sub p1) p3 p1, Vec3.dot_sub_swap (p4.sub p3) p3 p1,
    Vec3.dot_comm (p4.sub p3) (p2.sub p1), div_swap1, div_swap2]
  exact ⟨Vec3.normSq_sub_comm _ _, rfl, rfl⟩

/-- Witness for `C2_general_branch_symmetric` at the perpendicular
segment pair of the spec's literal case. -/
theorem C2_general_branch_symmetric_witness :
    (¬ |segments_denom ⟨0, 0, 0⟩ ⟨10, 0, 0⟩ ⟨5, 5, 0⟩ ⟨5, 10, 0⟩| < eps) ∧
    ((min_distance_segments ⟨0, 0, 0⟩ ⟨10, 0, 0⟩ ⟨5, 5, 0⟩ ⟨5, 10, 0⟩).1 =
        (min_distance_segments ⟨5, 5, 0⟩ ⟨5, 10, 0⟩ ⟨0, 0, 0⟩ ⟨10, 0, 0⟩).1 ∧
      (min_distance_segments ⟨0, 0, 0⟩ ⟨10, 0, 0⟩ ⟨5, 5, 0⟩ ⟨5, 10, 0⟩).2.1 =
        (min_distance_segments ⟨5, 5, 0⟩ ⟨5, 10, 0⟩ ⟨0, 0, 0⟩ ⟨10, 0, 0⟩).2.2 ∧
      (min_distance_segments ⟨0, 0, 0⟩ ⟨10, 0, 0⟩ ⟨5, 5, 0⟩ ⟨5, 10, 0⟩).2.2 =
        (min_distance_segments ⟨5, 5, 0⟩ ⟨5, 10, 0⟩ ⟨0, 0, 0⟩ ⟨10, 0, 0⟩).2.1) := by
  have h : ¬ |segments_denom ⟨0, 0, 0⟩ ⟨10, 0, 0⟩ ⟨5, 5, 0⟩ ⟨5, 10, 0⟩| < eps := by
    norm_num [segments_denom, Vec3.sub, Vec3.dot, eps]
  exact ⟨h, C2_general_branch_symmetric _ _ _ _ h⟩

/-- C4 counterexample: a Mission built from one untimed waypoint over the
window `[0, 600]` gives that (single, hence also last) waypoint time `0 =
start_time`, not `end_time = 600` as the claim's
`waypoints[N-1].time = end_time` demands at `N = 1`. -/
theorem C4_counterexample :
    Mission.make [{ x := 0, y := 0, z := none, time := none }] 0 600 "d" =
      .ok { waypoints := [{ x := 0, y := 0, z := none, time := some 0 }],
            start_time := 0, end_time := 600, drone_id := "d" } ∧
    some (0 : ℚ) ≠ some (600 : ℚ) := by
  constructor
  · norm_num [Mission.make, assign_waypoint_times, List.mapIdx_eq_enum_map,
      List.enum, List.enumFrom]
  · simp only [ne_eq, Option.some.injEq]
    norm_num

/-- C4 (amended): when a Mission is constructed from `N` waypoints of
which at least one lacks a time, ALL `N` waypoint times are reassigned:
waypoint `i` receives `start_time + (end_time - start_time) * i / (N-1)`
(so waypoint `0` gets `start_time` and waypoint `N-1` gets `end_time`)
when `N ≥ 2`, and the single waypoint receives `start_time` when
`N = 1`. -/
theorem C4_all_times_reassigned (waypoints : List Waypoint) (s e : ℚ)
    (id : String) (m : Mission)
    (hmk : Mission.make waypoints s e id = .ok m)
    (hmiss : waypoints.any (fun wp => wp.time.isNone) = true) :
    m.waypoints.length = waypoints.length ∧
    ∀ i (hi : i < m.waypoints.length),
      (m.waypoints.get ⟨i, hi⟩).time =
        some (if waypoints.length = 1 then s
              else s + (e - s) * (i : ℚ) / ((waypoints.length - 1 : ℕ) : ℚ)) := by
  unfold Mission.make at hmk
  simp only [hmiss, if_true] at hmk
  split_ifs at hmk with h1 h2
  rw [Except.ok.injEq] at hmk
  subst hmk
  constructor
  · simp [assign_waypoint_times, List.length_mapIdx]
  intro i hi
  have hi' : i < waypoints.length := by
    simpa [assign_waypoint_times, List.length_mapIdx] using hi
  show ((assign_waypoint_times waypoints s e).get ⟨i, _⟩).time = _
  simp only [assign_waypoint_times]
  rw [List.get_mapIdx _ _ i hi']
  by_cases hi0 : i = 0
  · subst hi0
    rw [if_pos rfl]
    show some s = _
    by_cases hl : waypoints.length = 1
    · rw [if_pos hl]
    · rw [if_neg hl]
      norm_num
  · have hlen2 : waypoints.length > 1 := by omega
    rw [if_neg hi0, if_pos hlen2, if_neg (by omega : ¬waypoints.length = 1)]
    show some (s + (e - s) / ((waypoints.length - 1 : ℕ) : ℚ) * (i : ℚ)) = _
    rw [div_mul_eq_mul_div]

/-- Witness for `C4_all_times_reassigned`: three untimed waypoints over a
10-minute (600 s) window receive times 0, 300, 600. -/
theorem C4_all_times_reassigned_witness :
    Mission.make [{ x := 0, y := 0, z := none, time := none },
        { x := 50, y := 0, z := none, time := none },
        { x := 100, y := 0, z := none, time := none }] 0 600 "d" =
      .ok { waypoints := [{ x := 0, y := 0, z := none, time := some 0 },
              { x := 50, y := 0, z := none, time := some 300 },
              { x := 100, y := 0, z := none, time := some 600 }],
            start_time := 0, end_time := 600, drone_id := "d" } ∧
    (({ waypoints := [{ x := 0, y := 0, z := none, time := some 0 },
              { x := 50, y := 0, z := none, time := some 300 },
              { x := 100, y := 0, z := none, time := some 600 }],
        start_time := 0, end_time := 600, drone_id := "d" } : Mission).waypoints.get
        ⟨1, by norm_num⟩).time =
      some (if ([{ x := 0, y := 0, z := none, time := none },
          { x := 50, y := 0, z := none, time := none },
          { x := 100, y := 0, z := none, time := none }] : List Waypoint).length = 1 then 0
        else 0 + (600 - 0) * ((1 : ℕ) : ℚ) /
          ((([{ x := 0, y := 0, z := none, time := none },
              { x := 50, y := 0, z := none, time := none },
              { x := 100, y := 0, z := none, time := none }] : List Waypoint).length - 1 : ℕ) : ℚ)) := by
  have hmk : Mission.make [{ x := 0, y := 0, z := none, time := none },
        { x := 50, y := 0, z := none, time := none },
        { x := 100, y := 0, z := none, time := none }] 0 600 "d" =
      .ok { waypoints := [{ x := 0, y := 0, z := none, time := some 0 },
              { x := 50, y := 0, z := none, time := some 300 },
              { x := 100, y := 0, z := none, time := some 600 }],
            start_time := 0, end_time := 600, drone_id := "d" } := by
    norm_num [Mission.make, assign_waypoint_times, List.mapIdx_eq_enum_map,
      List.enum, List.enumFrom]
  exact ⟨hmk, (C4_all_times_reassigned _ 0 600 "d" _ hmk (by decide)).2 1 (by norm_num)⟩

/-- C7: Mission construction fails exactly when the waypoint list is
empty or `start_time ≥ end_time`, and succeeds exactly when the list is
non-empty and `start_time < end_time`. -/
theorem C7_validation (waypoints : List Waypoint) (s e : ℚ) (id : String) :
    ((∃ msg, Mission.make waypoints s e id = Except.error msg) ↔
      (waypoints = [] ∨ e ≤ s)) ∧
    ((∃ m, Mission.make waypoints s e id = Except.ok m) ↔
      (waypoints ≠ [] ∧ s < e)) := by
  have hiff : waypoints.isEmpty = true ↔ waypoints = [] := by
    cases waypoints <;> simp
  unfold Mission.make
  split_ifs with h1 h2
  · have hnil : waypoints = [] := hiff.mp h1
    constructor
    · exact ⟨fun _ => Or.inl hnil, fun _ => ⟨_, rfl⟩⟩
    · constructor
      · rintro ⟨m, hm⟩
        exact absurd hm (by simp)
      · rintro ⟨hne, _⟩
        exact absurd hnil hne
  · have hne : waypoints ≠ [] := fun hcon => h1 (hiff.mpr hcon)
    constructor
    · exact ⟨fun _ => Or.inr h2, fun _ => ⟨_, rfl⟩⟩
    · constructor
      · rintro ⟨m, hm⟩
        exact absurd hm (by simp)
      · rintro ⟨_, hlt⟩
        exact absurd hlt (not_lt.mpr h2)
  all_goals
    have hne : waypoints ≠ [] := fun hcon => h1 (hiff.mpr hcon)
    have hlt : s < e := not_le.mp h2
    constructor
    · constructor
      · rintro ⟨msg, hm⟩
        exact absurd hm (by simp)
      · rintro (hcon | hcon)
        · exact absurd hcon hne
        · exact absurd hlt (not_lt.mpr hcon)
    · exact ⟨fun _ => ⟨hne, hlt⟩, fun _ => ⟨_, rfl⟩⟩

/-- C1: for a segment pair passing the segment-level time filter,
`_check_segment_conflict` reports a conflict exactly when the minimum
segment-segment distance is strictly below `min_safe_distance`; altitude
enters the distance computation only when all four waypoints carry `z`;
and the reported location is always the planar (x,y) projection of the
closest point on segment A, even for a 3D comparison. -/
theorem C1_segment_conflict_report (sys : DeconflictionSystem)
    (start1 end1 start2 end2 : Waypoint) (now : ℚ)
    (hfilter : segment_times_overlap start1 end1 start2 end2 = true) :
    ((check_segment_conflict sys start1 end1 start2 end2 now).isSome = true ↔
      Real.sqrt (((segment_pair_geometry start1 end1 start2 end2).1 : ℚ) : ℝ) <
        (sys.min_safe_distance : ℝ)) ∧
    (∀ cd, check_segment_conflict sys start1 end1 start2 end2 now = some cd →
      cd.location = ((segment_pair_geometry start1 end1 start2 end2).2.1.x,
        (segment_pair_geometry start1 end1 start2 end2).2.1.y)) ∧
    ((start1.z.isSome && end1.z.isSome && start2.z.isSome && end2.z.isSome) = true →
      segment_pair_geometry start1 end1 start2 end2 =
        min_distance_segments (start1.coordinates true) (end1.coordinates true)
          (start2.coordinates true) (end2.coordinates true)) ∧
    ((start1.z.isSome && end1.z.isSome && start2.z.isSome && end2.z.isSome) = false →
      segment_pair_geometry start1 end1 start2 end2 =
        min_distance_segments (start1.coordinates false) (end1.coordinates false)
          (start2.coordinates false) (end2.coordinates false)) := by
  have hq : 0 ≤ (segment_pair_geometry start1 end1 start2 end2).1 := by
    unfold segment_pair_geometry
    exact min_distance_segments_fst_nonneg _ _ _ _
  refine ⟨?_, ?_, ?_, ?_⟩
  · simp only [check_segment_conflict]
    rw [sqrt_lt_iff]
    split_ifs with hc
    · simpa using hc
    · simpa using hc
  · intro cd hcd
    simp only [check_segment_conflict] at hcd
    split_ifs at hcd with hc
    rw [Option.some.injEq] at hcd
    subst hcd
    rfl
  · intro hz
    unfold segment_pair_geometry
    rw [hz]
  · intro hz
    unfold segment_pair_geometry
    rw [hz]

/-- Witness for `C1_segment_conflict_report`: the crossing-path pair of
the spec (candidate segment (0,0)→(100,0) over 0–300 s, reference
segment (50,-50)→(50,50) over 120–180 s, threshold 10). -/
theorem C1_segment_conflict_report_witness :
    segment_times_overlap { x := 0, y := 0, z := none, time := some 0 }
        { x := 100, y := 0, z := none, time := some 300 }
        { x := 50, y := -50, z := none, time := some 120 }
        { x := 50, y := 50, z := none, time := some 180 } = true ∧
    ((check_segment_conflict { simulated_flights := [], min_safe_distance := 10 }
        { x := 0, y := 0, z := none, time := some 0 }
        { x := 100, y := 0, z := none, time := some 300 }
        { x := 50, y := -50, z := none, time := some 120 }
        { x := 50, y := 50, z := none, time := some 180 } 0).isSome = true ↔
      Real.sqrt (((segment_pair_geometry { x := 0, y := 0, z := none, time := some 0 }
          { x := 100, y := 0, z := none, time := some 300 }
          { x := 50, y := -50, z := none, time := some 120 }
          { x := 50, y := 50, z := none, time := some 180 }).1 : ℚ) : ℝ) <
        ((10 : ℚ) : ℝ)) :=
  ⟨by decide,
   (C1_segment_conflict_report { simulated_flights := [], min_safe_distance := 10 }
      { x := 0, y := 0, z := none, time := some 0 }
      { x := 100, y := 0, z := none, time := some 300 }
      { x := 50, y := -50, z := none, time := some 120 }
      { x := 50, y := 50, z := none, time := some 180 } 0 (by decide)).1⟩

/-- C8 counterexample: for a violating segment pair whose first segment
lacks a start time (`start1.time = none`, `start2.time = 10`), the
recorded conflict time is `min(now, 10) = 0` for `now = 0`, not the
earlier *available* start time `10` that the claim demands. -/
theorem C8_counterexample :
    (check_segment_conflict { simulated_flights := [], min_safe_distance := 10 }
      { x := 0, y := 0, z := none, time := none }
      { x := 10, y := 0, z := none, time := some 5 }
      { x := 5, y := -5, z := none, time := some 10 }
      { x := 5, y := 5, z := none, time := some 20 } 0).map (fun cd => cd.time) =
      some 0 ∧
    (check_segment_conflict { simulated_flights := [], min_safe_distance := 10 }
      { x := 0, y := 0, z := none, time := none }
      { x := 10, y := 0, z := none, time := some 5 }
      { x := 5, y := -5, z := none, time := some 10 }
      { x := 5, y := 5, z := none, time := some 20 } 0).map (fun cd => cd.time) ≠
      some 10 := by
  have h : (check_segment_conflict { simulated_flights := [], min_safe_distance := 10 }
      { x := 0, y := 0, z := none, time := none }
      { x := 10, y := 0, z := none, time := some 5 }
      { x := 5, y := -5, z := none, time := some 10 }
      { x := 5, y := 5, z := none, time := some 20 } 0).map (fun cd => cd.time) =
      some 0 := by
    norm_num [check_segment_conflict, segment_pair_geometry, min_distance_segments,
      interpolate_time, interpolate_datetime, Waypoint.coordinates, Vec3.sub, Vec3.add,
      Vec3.smul, Vec3.dot, Vec3.normSq, Vec3.planar, clamp01, eps, epsSq,
      min_def, max_def, Prod.mk.injEq, Vec3.mk.injEq]
  refine ⟨h, ?_⟩
  rw [h]
  simp only [ne_eq, Option.some.injEq]
  norm_num

/-- C8 (amended): for every reported conflict, when all four waypoint
times are present the conflict time is the earlier of the two segments'
interpolated arrival times, with each ratio
`clamp(dot(closestPoint - segStart, segVector) / |segVector|², 0, 1)`
(0 for a near-zero-length segment, planar quantities throughout); when
any of the four times is absent, the conflict time is the earlier of the
two start times, each falling back to `now` (`datetime.now()`) when
itself absent. -/
theorem C8_conflict_time (sys : DeconflictionSystem)
    (start1 end1 start2 end2 : Waypoint) (now : ℚ) (cd : ConflictInfo)
    (hsome : check_segment_conflict sys start1 end1 start2 end2 now = some cd) :
    (∀ t1 t1' t2 t2', start1.time = some t1 → end1.time = some t1' →
      start2.time = some t2 → end2.time = some t2' →
      cd.time = min
        (interpolate_datetime t1 t1'
          (if ((end1.coordinates false).sub (start1.coordinates false)).normSq < epsSq then 0
           else min 1 (max 0
            ((((segment_pair_geometry start1 end1 start2 end2).2.1.planar).sub
                (start1.coordinates false)).dot
              ((end1.coordinates false).sub (start1.coordinates false)) /
              ((end1.coordinates false).sub (start1.coordinates false)).normSq))))
        (interpolate_datetime t2 t2'
          (if ((end2.coordinates false).sub (start2.coordinates false)).normSq < epsSq then 0
           else min 1 (max 0
            ((((segment_pair_geometry start1 end1 start2 end2).2.2.planar).sub
                (start2.coordinates false)).dot
              ((end2.coordinates false).sub (start2.coordinates false)) /
              ((end2.coordinates false).sub (start2.coordinates false)).normSq))))) ∧
    ((start1.time = none ∨ end1.time = none ∨ start2.time = none ∨ end2.time = none) →
      cd.time = min (start1.time.getD now) (start2.time.getD now)) := by
  simp only [check_segment_conflict] at hsome
  split_ifs at hsome with hc
  rw [Option.some.injEq] at hsome
  subst hsome
  constructor
  · intro t1 t1' t2 t2' ht1 ht1' ht2 ht2'
    show interpolate_time start1 end1 start2 end2 _ _ now = _
    rw [interpolate_time, ht1, ht1', ht2, ht2']
  · intro hnone
    show interpolate_time start1 end1 start2 end2 _ _ now = _
    cases h1 : start1.time <;> cases h2 : end1.time <;>
      cases h3 : start2.time <;> cases h4 : end2.time <;>
      simp_all [interpolate_time]

/-- Witness for `C8_conflict_time`: the fully-timed crossing pair; both
interpolated arrival times are 150, so the recorded time is 150. -/
theorem C8_conflict_time_witness :
    check_segment_conflict { simulated_flights := [], min_safe_distance := 10 }
      { x := 0, y := 0, z := none, time := some 0 }
      { x := 100, y := 0, z := none, time := some 300 }
      { x := 50, y := -50, z := none, time := some 120 }
      { x := 50, y := 50, z := none, time := some 180 } 0 =
      some { location := (50, 0), time := 150, distanceSq := 0 } ∧
    ({ location := (50, 0), time := 150, distanceSq := 0 } : ConflictInfo).time = min
      (interpolate_datetime 0 300
        (if ((({ x := 100, y := 0, z := none, time := some 300 } : Waypoint).coordinates false).sub
              (({ x := 0, y := 0, z := none, time := some 0 } : Waypoint).coordinates false)).normSq < epsSq then 0
         else min 1 (max 0
          ((((segment_pair_geometry { x := 0, y := 0, z := none, time := some 0 }
                { x := 100, y := 0, z := none, time := some 300 }
                { x := 50, y := -50, z := none, time := some 120 }
                { x := 50, y := 50, z := none, time := some 180 }).2.1.planar).sub
              (({ x := 0, y := 0, z := none, time := some 0 } : Waypoint).coordinates false)).dot
            ((({ x := 100, y := 0, z := none, time := some 300 } : Waypoint).coordinates false).sub
              (({ x := 0, y := 0, z := none, time := some 0 } : Waypoint).coordinates false)) /
            ((({ x := 100, y := 0, z := none, time := some 300 } : Waypoint).coordinates false).sub
              (({ x := 0, y := 0, z := none, time := some 0 } : Waypoint).coordinates false)).normSq))))
      (interpolate_datetime 120 180
        (if ((({ x := 50, y := 50, z := none, time := some 180 } : Waypoint).coordinates false).sub
              (({ x := 50, y := -50, z := none, time := some 120 } : Waypoint).coordinates false)).normSq < epsSq then 0
         else min 1 (max 0
          ((((segment_pair_geometry { x := 0, y := 0, z := none, time := some 0 }
                { x := 100, y := 0, z := none, time := some 300 }
                { x := 50, y := -50, z := none, time := some 120 }
                { x := 50, y := 50, z := none, time := some 180 }).2.2.planar).sub
              (({ x := 50, y := -50, z := none, time := some 120 } : Waypoint).coordinates false)).dot
            ((({ x := 50, y := 50, z := none, time := some 180 } : Waypoint).coordinates false).sub
              (({ x := 50, y := -50, z := none, time := some 120 } : Waypoint).coordinates false)) /
            ((({ x := 50, y := 50, z := none, time := some 180 } : Waypoint).coordinates false).sub
              (({ x := 50, y := -50, z := none, time := some 120 } : Waypoint).coordinates false)).normSq)))) := by
  have hs : check_segment_conflict { simulated_flights := [], min_safe_distance := 10 }
      { x := 0, y := 0, z := none, time := some 0 }
      { x := 100, y := 0, z := none, time := some 300 }
      { x := 50, y := -50, z := none, time := some 120 }
      { x := 50, y := 50, z := none, time := some 180 } 0 =
      some { location := (50, 0), time := 150, distanceSq := 0 } := by
    norm_num [check_segment_conflict, segment_pair_geometry, min_distance_segments,
      interpolate_time, interpolate_datetime, Waypoint.coordinates, Vec3.sub, Vec3.add,
      Vec3.smul, Vec3.dot, Vec3.normSq, Vec3.planar, clamp01, eps, epsSq,
      min_def, max_def, Prod.mk.injEq, Vec3.mk.injEq]
  exact ⟨hs, (C8_conflict_time _ _ _ _ _ _ _ hs).1 0 300 120 180 rfl rfl rfl rfl⟩

/-- C10 (amended): the conflict-time projection ratios are computed from
planar (x,y) data only — `_interpolate_time` is invariant under changing
the four waypoints' `z` fields and under replacing the closest points by
any points with the same (x,y) — but the reported conflict time still
depends on altitude *through* the 3D closest points themselves (see
`C10_counterexample`). -/
theorem C10_planar_ratio (start1 end1 start2 end2 : Waypoint) (z1 z2 z3 z4 : Option ℚ)
    (p1 p2 q1 q2 : Vec3) (now : ℚ)
    (hx1 : q1.x = p1.x) (hy1 : q1.y = p1.y) (hx2 : q2.x = p2.x) (hy2 : q2.y = p2.y) :
    interpolate_time { start1 with z := z1 } { end1 with z := z2 }
      { start2 with z := z3 } { end2 with z := z4 } q1 q2 now =
    interpolate_time start1 end1 start2 end2 p1 p2 now := by
  have hq1 : q1.planar = p1.planar := by simp [Vec3.planar, hx1, hy1]
  have hq2 : q2.planar = p2.planar := by simp [Vec3.planar, hx2, hy2]
  cases h1 : start1.time <;> cases h2 : end1.time <;>
    cases h3 : start2.time <;> cases h4 : end2.time <;>
    simp_all [interpolate_time, Waypoint.coordinates]

/-- Witness for `C10_planar_ratio`: changing every altitude and the
z-components of the closest points leaves the interpolated time
unchanged. -/
theorem C10_planar_ratio_witness :
    interpolate_time { x := 0, y := 0, z := some 99, time := some 0 }
      { x := 10, y := 0, z := some 98, time := some 100 }
      { x := 0, y := 5, z := some 97, time := some 60 }
      { x := 0, y := -5, z := some 96, time := some 70 }
      ⟨5, 0, 77⟩ ⟨0, 0, 66⟩ 0 =
    interpolate_time { x := 0, y := 0, z := some 0, time := some 0 }
      { x := 10, y := 0, z := some 10, time := some 100 }
      { x := 0, y := 5, z := some 10, time := some 60 }
      { x := 0, y := -5, z := some 10, time := some 70 }
      ⟨5, 0, 5⟩ ⟨0, 0, 10⟩ 0 :=
  C10_planar_ratio { x := 0, y := 0, z := some 0, time := some 0 }
    { x := 10, y := 0, z := some 10, time := some 100 }
    { x := 0, y := 5, z := some 10, time := some 60 }
    { x := 0, y := -5, z := some 10, time := some 70 }
    (some 99) (some 98) (some 97) (some 96)
    ⟨5, 0, 5⟩ ⟨0, 0, 10⟩ ⟨5, 0, 77⟩ ⟨0, 0, 66⟩ 0 rfl rfl rfl rfl

/-- C10 counterexample: two fully-3D segment pairs with identical (x,y)
coordinates and identical times for every waypoint, differing only in
segment B's altitudes (10 vs 0), yield different reported conflict times
(50 vs 0): the conflict time does NOT depend only on the x,y geometry of
the segments, because the closest points fed into the ratio computation
come from the 3D distance computation. -/
theorem C10_counterexample :
    (check_segment_conflict { simulated_flights := [], min_safe_distance := 50 }
      { x := 0, y := 0, z := some 0, time := some 0 }
      { x := 10, y := 0, z := some 10, time := some 100 }
      { x := 0, y := 5, z := some 10, time := some 60 }
      { x := 0, y := -5, z := some 10, time := some 70 } 0).map (fun cd => cd.time) =
      some 50 ∧
    (check_segment_conflict { simulated_flights := [], min_safe_distance := 50 }
      { x := 0, y := 0, z := some 0, time := some 0 }
      { x := 10, y := 0, z := some 10, time := some 100 }
      { x := 0, y := 5, z := some 0, time := some 60 }
      { x := 0, y := -5, z := some 0, time := some 70 } 0).map (fun cd => cd.time) =
      some 0 ∧
    some (50 : ℚ) ≠ some (0 : ℚ) := by
  refine ⟨?_, ?_, by simp only [ne_eq, Option.some.injEq]; norm_num⟩ <;>
    norm_num [check_segment_conflict, segment_pair_geometry, min_distance_segments,
      interpolate_time, interpolate_datetime, Waypoint.coordinates, Vec3.sub, Vec3.add,
      Vec3.smul, Vec3.dot, Vec3.normSq, Vec3.planar, clamp01, eps, epsSq,
      min_def, max_def, Prod.mk.injEq, Vec3.mk.injEq]

theorem foldl_add_conflict_eq (did : String) (msd : ℚ) (cs : List ConflictInfo) :
    ∀ r : ConflictResult,
      cs.foldl (fun result conflict =>
        result.add_conflict conflict.location conflict.time did conflict.distanceSq msd) r
      = { is_clear := r.is_clear && cs.isEmpty,
          conflict_details := r.conflict_details ++ cs.map (fun c =>
            { location := c.location, time := c.time, conflicting_drone_id := did,
              actual_distanceSq := c.distanceSq, min_safe_distance := msd }) } := by
  induction cs with
  | nil => intro r; simp
  | cons c cs ih =>
    intro r
    rw [List.foldl_cons, ih]
    simp [ConflictResult.add_conflict]

theorem check_path_conflicts_eq (sys : DeconflictionSystem) (m1 m2 : Mission) (now : ℚ) :
    check_path_conflicts sys m1 m2 now =
      (m1.get_path_segments.map fun seg1 =>
        m2.get_path_segments.filterMap fun seg2 =>
          if segment_times_overlap seg1.1 seg1.2 seg2.1 seg2.2 then
            check_segment_conflict sys seg1.1 seg1.2 seg2.1 seg2.2 now
          else none).flatten := by
  have hinner : ∀ (seg1 : Waypoint × Waypoint) (acc : List ConflictInfo),
      m2.get_path_segments.foldl (fun conflicts seg2 =>
        if segment_times_overlap seg1.1 seg1.2 seg2.1 seg2.2 then
          match check_segment_conflict sys seg1.1 seg1.2 seg2.1 seg2.2 now with
          | some conflict_details => conflicts ++ [conflict_details]
          | none => conflicts
        else conflicts) acc
      = acc ++ (m2.get_path_segments.filterMap fun seg2 =>
          if segment_times_overlap seg1.1 seg1.2 seg2.1 seg2.2 then
            check_segment_conflict sys seg1.1 seg1.2 seg2.1 seg2.2 now
          else none) := by
    intro seg1
    induction m2.get_path_segments with
    | nil => intro acc; simp
    | cons seg2 rest ih =>
      intro acc
      rw [List.foldl_cons, List.filterMap_cons]
      by_cases hov : segment_times_overlap seg1.1 seg1.2 seg2.1 seg2.2
      · rw [if_pos hov, if_pos hov]
        cases hc : check_segment_conflict sys seg1.1 seg1.2 seg2.1 seg2.2 now with
        | some cd => rw [ih]; simp
        | none => rw [ih]
      · rw [if_neg hov, if_neg hov, ih]
  have houter : ∀ (segs : List (Waypoint × Waypoint)) (acc : List ConflictInfo),
      segs.foldl (fun conflicts seg1 =>
        m2.get_path_segments.foldl (fun conflicts seg2 =>
          if segment_times_overlap seg1.1 seg1.2 seg2.1 seg2.2 then
            match check_segment_conflict sys seg1.1 seg1.2 seg2.1 seg2.2 now with
            | some conflict_details => conflicts ++ [conflict_details]
            | none => conflicts
          else conflicts) conflicts) acc
      = acc ++ (segs.map fun seg1 =>
          m2.get_path_segments.filterMap fun seg2 =>
            if segment_times_overlap seg1.1 seg1.2 seg2.1 seg2.2 then
              check_segment_conflict sys seg1.1 seg1.2 seg2.1 seg2.2 now
            else none).flatten := by
    intro segs
    induction segs with
    | nil => intro acc; simp
    | cons seg1 rest ih =>
      intro acc
      rw [List.foldl_cons, hinner seg1 acc, ih]
      simp
  rw [check_path_conflicts, houter]
  simp

theorem check_mission_eq (sys : DeconflictionSystem) (mission : Mission) (now : ℚ) :
    check_mission sys mission now =
      { is_clear := ((sys.simulated_flights.map fun f =>
            flight_conflict_records sys mission f now).flatten).isEmpty,
        conflict_details := (sys.simulated_flights.map fun f =>
            flight_conflict_records sys mission f now).flatten } := by
  have hstep : ∀ (fs : List Mission) (r : ConflictResult),
      fs.foldl (fun result simulated_flight =>
        if simulated_flight.drone_id = mission.drone_id then result
        else if time_windows_overlap mission simulated_flight then
          (check_path_conflicts sys mission simulated_flight now).foldl
            (fun result conflict =>
              result.add_conflict conflict.location conflict.time
                simulated_flight.drone_id conflict.distanceSq sys.min_safe_distance)
            result
        else result) r
      = { is_clear := r.is_clear &&
            ((fs.map fun f => flight_conflict_records sys mission f now).flatten).isEmpty,
          conflict_details := r.conflict_details ++
            (fs.map fun f => flight_conflict_records sys mission f now).flatten } := by
    intro fs
    induction fs with
    | nil => intro r; simp
    | cons f rest ih =>
      intro r
      rw [List.foldl_cons]
      by_cases hid : f.drone_id = mission.drone_id
      · rw [if_pos hid, ih]
        have hrec : flight_conflict_records sys mission f now = [] := by
          rw [flight_conflict_records, if_pos hid]
        simp [hrec]
      · rw [if_neg hid]
        by_cases hov : time_windows_overlap mission f
        · rw [if_pos hov, foldl_add_conflict_eq, ih]
          have hrec : flight_conflict_records sys mission f now =
              (check_path_conflicts sys mission f now).map fun c =>
                { location := c.location, time := c.time,
                  conflicting_drone_id := f.drone_id,
                  actual_distanceSq := c.distanceSq,
                  min_safe_distance := sys.min_safe_distance } := by
            rw [flight_conflict_records, if_neg hid, if_pos hov]
          rw [List.map_cons, List.flatten_cons, hrec]
          generalize check_path_conflicts sys mission f now = cs
          cases cs <;> simp [Bool.and_assoc]
        · rw [if_neg hov, ih]
          have hrec : flight_conflict_records sys mission f now = [] := by
            rw [flight_conflict_records, if_neg hid, if_neg hov]
          simp [hrec]
  rw [check_mission, hstep]
  simp

/-- C5: `check_mission` never produces a conflict record whose
`conflicting_drone_id` equals the candidate's `drone_id`: reference
missions sharing the candidate's drone id are skipped entirely. -/
theorem C5_self_exclusion (sys : DeconflictionSystem) (mission : Mission) (now : ℚ) :
    ((check_mission sys mission now).conflict_details.all
      fun rec => rec.conflicting_drone_id != mission.drone_id) = true := by
  rw [check_mission_eq]
  rw [List.all_eq_true]
  intro rec hrec
  rw [List.mem_flatten] at hrec
  obtain ⟨l, hl, hrecl⟩ := hrec
  rw [List.mem_map] at hl
  obtain ⟨f, hf, rfl⟩ := hl
  rw [flight_conflict_records] at hrecl
  split_ifs at hrecl with hid hov
  · exact absurd hrecl (by simp)
  · rw [List.mem_map] at hrecl
    obtain ⟨c, hc, rfl⟩ := hrecl
    simp only [bne_iff_ne, ne_eq]
    exact hid
  · exact absurd hrecl (by simp)

/-- C6: a reference mission whose overall time window is disjoint from
the candidate's contributes no conflict records, regardless of spatial
proximity; when every reference is disjoint the result is clear. -/
theorem C6_disjoint_windows (sys : DeconflictionSystem) (mission : Mission) (now : ℚ) :
    (∀ f, time_windows_overlap mission f = false →
      flight_conflict_records sys mission f now = []) ∧
    ((∀ f ∈ sys.simulated_flights, time_windows_overlap mission f = false) →
      check_mission sys mission now = { is_clear := true, conflict_details := [] }) := by
  have hone : ∀ f, time_windows_overlap mission f = false →
      flight_conflict_records sys mission f now = [] := by
    intro f hov
    rw [flight_conflict_records]
    split_ifs with hid hov'
    · rfl
    · rw [hov] at hov'
      exact (Bool.false_ne_true hov').elim
    · rfl
  refine ⟨hone, fun hall => ?_⟩
  rw [check_mission_eq]
  have hfl : (sys.simulated_flights.map fun f =>
      flight_conflict_records sys mission f now).flatten = [] := by
    rw [List.flatten_eq_nil_iff]
    intro l hl
    rw [List.mem_map] at hl
    obtain ⟨f, hf, rfl⟩ := hl
    exact hone f (hall f hf)
  rw [hfl]
  rfl

theorem interpolate_time_now_indep (start1 end1 start2 end2 : Waypoint)
    (p1 p2 : Vec3) (now1 now2 : ℚ)
    (h1 : start1.time.isSome = true) (h2 : end1.time.isSome = true)
    (h3 : start2.time.isSome = true) (h4 : end2.time.isSome = true) :
    interpolate_time start1 end1 start2 end2 p1 p2 now1 =
      interpolate_time start1 end1 start2 end2 p1 p2 now2 := by
  obtain ⟨t1, ht1⟩ := Option.isSome_iff_exists.mp h1
  obtain ⟨t2, ht2⟩ := Option.isSome_iff_exists.mp h2
  obtain ⟨t3, ht3⟩ := Option.isSome_iff_exists.mp h3
  obtain ⟨t4, ht4⟩ := Option.isSome_iff_exists.mp h4
  rw [interpolate_time, interpolate_time, ht1, ht2, ht3, ht4]

theorem check_segment_conflict_now_indep (sys : DeconflictionSystem)
    (start1 end1 start2 end2 : Waypoint) (now1 now2 : ℚ)
    (h1 : start1.time.isSome = true) (h2 : end1.time.isSome = true)
    (h3 : start2.time.isSome = true) (h4 : end2.time.isSome = true) :
    check_segment_conflict sys start1 end1 start2 end2 now1 =
      check_segment_conflict sys start1 end1 start2 end2 now2 := by
  simp only [check_segment_conflict]
  rw [interpolate_time_now_indep start1 end1 start2 end2 _ _ now1 now2 h1 h2 h3 h4]

theorem mem_of_get_path_segments (m : Mission) (seg : Waypoint × Waypoint)
    (h : seg ∈ m.get_path_segments) :
    seg.1 ∈ m.waypoints ∧ seg.2 ∈ m.waypoints := by
  obtain ⟨a, b⟩ := seg
  rw [Mission.get_path_segments] at h
  have hz := List.of_mem_zip h
  exact ⟨hz.1, List.mem_of_mem_tail hz.2⟩

theorem check_path_conflicts_now_indep (sys : DeconflictionSystem)
    (m1 m2 : Mission) (now1 now2 : ℚ)
    (hm1 : m1.fully_timed = true) (hm2 : m2.fully_timed = true) :
    check_path_conflicts sys m1 m2 now1 = check_path_conflicts sys m1 m2 now2 := by
  rw [Mission.fully_timed] at hm1 hm2
  rw [check_path_conflicts_eq, check_path_conflicts_eq]
  apply congrArg
  apply List.map_congr_left
  intro seg1 hseg1
  apply List.filterMap_congr
  intro seg2 hseg2
  obtain ⟨ha1, hb1⟩ := mem_of_get_path_segments m1 seg1 hseg1
  obtain ⟨ha2, hb2⟩ := mem_of_get_path_segments m2 seg2 hseg2
  have t1 := List.all_eq_true.mp hm1 _ ha1
  have t2 := List.all_eq_true.mp hm1 _ hb1
  have t3 := List.all_eq_true.mp hm2 _ ha2
  have t4 := List.all_eq_true.mp hm2 _ hb2
  by_cases hov : segment_times_overlap seg1.1 seg1.2 seg2.1 seg2.2
  · rw [if_pos hov, if_pos hov,
      check_segment_conflict_now_indep sys _ _ _ _ now1 now2 t1 t2 t3 t4]
  · rw [if_neg hov, if_neg hov]

theorem flight_conflict_records_now_indep (sys : DeconflictionSystem)
    (mission f : Mission) (now1 now2 : ℚ)
    (hm : mission.fully_timed = true) (hf : f.fully_timed = true) :
    flight_conflict_records sys mission f now1 =
      flight_conflict_records sys mission f now2 := by
  rw [flight_conflict_records, flight_conflict_records,
    check_path_conflicts_now_indep sys mission f now1 now2 hm hf]

/-- C9: `check_mission` is deterministic — with fully timed missions
(which `Mission.make` always produces) the result does not depend on the
hidden `datetime.now()` input, and the conflict records come in
reference-mission order, then candidate-segment order, then
reference-segment order (the nested `map`/`filterMap`/`flatten`
enumeration). -/
theorem C9_deterministic (sys : DeconflictionSystem) (mission : Mission)
    (now1 now2 : ℚ)
    (hm : mission.fully_timed = true)
    (hflights : ∀ f ∈ sys.simulated_flights, f.fully_timed = true) :
    check_mission sys mission now1 = check_mission sys mission now2 ∧
    (check_mission sys mission now1).conflict_details =
      (sys.simulated_flights.map fun f =>
        flight_conflict_records sys mission f now1).flatten ∧
    ∀ m2 : Mission, check_path_conflicts sys mission m2 now1 =
      (mission.get_path_segments.map fun seg1 =>
        m2.get_path_segments.filterMap fun seg2 =>
          if segment_times_overlap seg1.1 seg1.2 seg2.1 seg2.2 then
            check_segment_conflict sys seg1.1 seg1.2 seg2.1 seg2.2 now1
          else none).flatten := by
  refine ⟨?_, ?_, fun m2 => check_path_conflicts_eq sys mission m2 now1⟩
  · rw [check_mission_eq, check_mission_eq]
    have hmap : (sys.simulated_flights.map fun f =>
        flight_conflict_records sys mission f now1)
        = (sys.simulated_flights.map fun f =>
            flight_conflict_records sys mission f now2) := by
      apply List.map_congr_left
      intro f hf
      exact flight_conflict_records_now_indep sys mission f now1 now2 hm (hflights f hf)
    rw [hmap]
  · rw [check_mission_eq]

theorem C6_disjoint_windows_witness :
    time_windows_overlap mission_drone1 mission_drone2_late = false ∧
    flight_conflict_records sys_disjoint mission_drone1 mission_drone2_late 0 = [] ∧
    check_mission sys_disjoint mission_drone1 0 =
      { is_clear := true, conflict_details := [] } := by
  have hov : time_windows_overlap mission_drone1 mission_drone2_late = false := by
    decide
  refine ⟨hov, (C6_disjoint_windows sys_disjoint mission_drone1 0).1 _ hov,
    (C6_disjoint_windows sys_disjoint mission_drone1 0).2 ?_⟩
  intro f hf
  rw [show sys_disjoint.simulated_flights = [mission_drone2_late] from rfl,
    List.mem_singleton] at hf
  subst hf
  exact hov

theorem C9_deterministic_witness :
    mission_cross_cand.fully_timed = true ∧
    mission_cross_ref.fully_timed = true ∧
    check_mission sys_cross mission_cross_cand 0 =
      check_mission sys_cross mission_cross_cand 12345 ∧
    (check_mission sys_cross mission_cross_cand 0).conflict_details =
      (sys_cross.simulated_flights.map fun f =>
        flight_conflict_records sys_cross mission_cross_cand f 0).flatten := by
  have h := C9_deterministic sys_cross mission_cross_cand 0 12345 (by decide)
    (by
      intro f hf
      rw [show sys_cross.simulated_flights = [mission_cross_ref] from rfl,
        List.mem_singleton] at hf
      subst hf
      decide)
  exact ⟨by decide, by decide, h.1, h.2.1⟩
